import Mathlib

/-!
Verification development for the OpenClaw Dev supervisor loop
(`scripts/supervisor_loop.py`) and its trigger companion
(`scripts/trigger_supervisor.py`).

The Python code is shallowly embedded: JSON documents (the status file,
the blueprint, trigger payloads) become the mutual inductive `JVal` /
`JArr` / `JObj`; Python strings become Lean `String` (a list of code
points); Python `int` becomes `Int`; fallible operations return
`Option`.  File-system effects (reads, writes, deletions, mtimes) and
subprocess exit codes are reified as explicit inputs and outputs of the
step functions, so one iteration of the supervisor loop is a pure
function from its configuration, the persisted status document and an
environment record (trigger-file content, subprocess exit codes,
observed mtimes, QA-command outcomes) to a result record that carries
the final persisted status, the supervisor's decision (exit the session
or continue), and the ordered list of external invocations performed.
-/

mutual
/-- Model of a JSON value as produced by `json.loads`.  JSON numbers in
this code base are integers; floats do not occur in any of the documents
the supervisor reads, so they are not modelled. -/
inductive JVal where
  | null
  | bool (b : Bool)
  | int (n : Int)
  | str (s : String)
  | arr (xs : JArr)
  | obj (fs : JObj)
deriving DecidableEq

/-- A JSON array (list of `JVal`, spelled out so that structural
recursion and decidable equality are available). -/
inductive JArr where
  | nil
  | cons (v : JVal) (rest : JArr)
deriving DecidableEq

/-- A JSON object: an insertion-ordered association list from string
keys to values, mirroring a Python `dict`. -/
inductive JObj where
  | nil
  | cons (k : String) (v : JVal) (rest : JObj)
deriving DecidableEq
end

/-- A persisted status / payload document (`STATUS.json`, a trigger
payload, a blueprint) is a JSON object. -/
abbrev Status := JObj

/-- Python `d.get(key)`: the first binding of `key`, if any. -/
def jget : JObj → String → Option JVal
  | .nil, _ => none
  | .cons k v rest, key => if k = key then some v else jget rest key

/-- Python `d[key] = value`: replace the binding in place if the key is
present (Python dicts keep the original key position), else append. -/
def jset : JObj → String → JVal → JObj
  | .nil, key, value => .cons key value .nil
  | .cons k v rest, key, value =>
    if k = key then .cons k value rest else .cons k v (jset rest key value)

@[simp] theorem jget_jset_self (o : JObj) (k : String) (v : JVal) :
    jget (jset o k v) k = some v := by
  match o with
  | .nil => simp [jget, jset]
  | .cons k0 v0 rest =>
    by_cases h : k0 = k <;> simp [jget, jset, h, jget_jset_self rest k v]

theorem jget_jset_ne (o : JObj) (k k' : String) (v : JVal) (h : k' ≠ k) :
    jget (jset o k v) k' = jget o k' := by
  match o with
  | .nil => simp [jget, jset, Ne.symm h]
  | .cons k0 v0 rest =>
    by_cases h0 : k0 = k
    · subst h0
      simp [jget, jset, Ne.symm h]
    · simp only [jset, if_neg h0]
      by_cases h1 : k0 = k' <;> simp [jget, h1, jget_jset_ne rest k k' v h]

/-- Python truthiness of a JSON value (`bool(v)`). -/
def jvTruthy : JVal → Bool
  | .null => false
  | .bool b => b
  | .int n => n != 0
  | .str s => s != ""
  | .arr .nil => false
  | .arr _ => true
  | .obj .nil => false
  | .obj _ => true

/-- Python truthiness of a `d.get(key)` result (`None` is falsy). -/
def pyTruthy : Option JVal → Bool
  | none => false
  | some v => jvTruthy v

mutual
/-- Python `repr` of a JSON value (scalar cases exact; container cases
reproduce the single-quoted element layout, eliding Python's escaping
of quote characters inside strings, which never occurs in the
documents the claims touch). -/
def pyRepr : JVal → String
  | .null => "None"
  | .bool b => if b then "True" else "False"
  | .int n => toString n
  | .str s => "\x27" ++ s ++ "\x27"
  | .arr xs => "[" ++ pyReprArr xs ++ "]"
  | .obj fs => "\x7b" ++ pyReprObj fs ++ "\x7d"

/-- Comma-joined `repr` of array elements. -/
def pyReprArr : JArr → String
  | .nil => ""
  | .cons v .nil => pyRepr v
  | .cons v rest => pyRepr v ++ ", " ++ pyReprArr rest

/-- Comma-joined `repr` of object entries. -/
def pyReprObj : JObj → String
  | .nil => ""
  | .cons k v .nil => "\x27" ++ k ++ "\x27: " ++ pyRepr v
  | .cons k v rest => "\x27" ++ k ++ "\x27: " ++ pyRepr v ++ ", " ++ pyReprObj rest
end

/-- Python `str(v)`: identity on strings, `repr` otherwise. -/
def pyStr : JVal → String
  | .str s => s
  | v => pyRepr v

/-- Characters removed by Python `str.strip()` (the ASCII whitespace
set; uncommon Unicode space characters are elided). -/
def pyIsSpace (c : Char) : Bool :=
  c = ' ' || c = '\t' || c = '\n' || c = '\r' || c = '\x0b' || c = '\x0c'

/-- Strip leading and trailing whitespace from a list of characters. -/
def pyStripChars (l : List Char) : List Char :=
  ((l.dropWhile pyIsSpace).reverse.dropWhile pyIsSpace).reverse

/-- Python `s.strip()`. -/
def pyStrip (s : String) : String := ⟨pyStripChars s.data⟩

/-- Python `s.lower()` (ASCII case mapping). -/
def pyLower (s : String) : String := ⟨s.data.map Char.toLower⟩

/-- Python `needle in hay` on strings: substring test. -/
def listContainsSub (hay needle : List Char) : Bool :=
  match hay with
  | [] => needle.isEmpty
  | c :: rest => needle.isPrefixOf (c :: rest) || listContainsSub rest needle

/-- Digit-run accumulator for `int(str)`. -/
def pyDigitsGo : List Char → Nat → Option Nat
  | [], acc => some acc
  | c :: rest, acc =>
    if c.isDigit then pyDigitsGo rest (acc * 10 + (c.toNat - '0'.toNat)) else none

/-- Python `int(s)` on a string: optional sign followed by decimal
digits, surrounding whitespace ignored; `none` models `ValueError`. -/
def pyIntOfString (s : String) : Option Int :=
  match pyStripChars s.data with
  | [] => none
  | '-' :: rest =>
    if rest = [] then none else (pyDigitsGo rest 0).map (fun n => -(n : Int))
  | '+' :: rest =>
    if rest = [] then none else (pyDigitsGo rest 0).map (fun n => (n : Int))
  | l => (pyDigitsGo l 0).map (fun n => (n : Int))

/-- Python `int(v)` on a JSON value (`True` converts to 1, `False` to
0); `none` models the `TypeError` / `ValueError` raised otherwise. -/
def pyInt : JVal → Option Int
  | .int n => some n
  | .bool b => some (if b then 1 else 0)
  | .str s => pyIntOfString s
  | _ => none

/-- Python `v == k` between a `d.get(key)` result and an `int` (Python
booleans compare equal to 0 and 1). -/
def pyEqInt : Option JVal → Int → Bool
  | some (.int n), k => n == k
  | some (.bool b), k => (if b then (1 : Int) else 0) == k
  | _, _ => false

/-- Characters that survive `re.sub(r"[^a-z0-9._-]+", "-", cleaned)`
untouched: lowercase ASCII letters, digits, dot, underscore, hyphen. -/
def allowedIdentChar (c : Char) : Bool :=
  ('a' ≤ c && c ≤ 'z') || ('0' ≤ c && c ≤ '9') || c = '.' || c = '_' || c = '-'

/-- Regex replacement `re.sub(r"[^a-z0-9._-]+", "-", _)`: each maximal
run of disallowed characters becomes a single hyphen.  The flag records
whether the scanner is currently inside a disallowed run. -/
def collapseDisallowed : Bool → List Char → List Char
  | _, [] => []
  | inRun, c :: rest =>
    if allowedIdentChar c then c :: collapseDisallowed false rest
    else if inRun then collapseDisallowed true rest
    else '-' :: collapseDisallowed true rest

/-- Embedding of `_normalize_identifier` (`scripts/supervisor_loop.py`)
and the identical `normalize_identifier` (`scripts/trigger_supervisor.py`):
non-strings fall back, the input is stripped and lowercased, an empty
remainder falls back, and runs of characters outside `[a-z0-9._-]` are
collapsed to `-`.  `none` models a Python `None` argument. -/
def normalize_identifier (value : Option JVal) (fallback : String) : String :=
  match value with
  | some (.str s) =>
    let cleaned := pyLower (pyStrip s)
    if cleaned = "" then fallback else ⟨collapseDisallowed false cleaned.data⟩
  | _ => fallback

/-- Embedding of `_truncate_chars` (`scripts/supervisor_loop.py`):
non-positive budgets yield the empty string, short inputs pass through,
long inputs keep `max_chars // 2` head characters and the remaining
budget of tail characters around an elision marker.  Python strings are
modelled as their lists of code points. -/
def truncate_chars (text : List Char) (max_chars : Int) : List Char :=
  if max_chars ≤ 0 then []
  else if (text.length : Int) ≤ max_chars then text
  else
    let m := max_chars.toNat
    let head := m / 2
    let tail := m - head
    text.take head ++ ('\n' :: '.' :: '.' :: '.' :: '\n' :: []) ++
      text.drop (text.length - tail)

/-- Attempt loop of `run_tests_with_retry`.  `rcOf i` is the exit code
of the `i`-th QA-command invocation (1-based), reifying the outcome of
`run_tests`; `attempts` counts invocations made so far.  The fuel is an
upper bound on the remaining iterations (`retries + 1 - attempts` at
every call), so the fuel-exhausted branch is never reached. -/
def run_tests_attempts (rcOf : Nat → Int) (retries : Nat) : Nat → Nat → Int × Nat
  | attempts, 0 => (rcOf (attempts + 1), attempts + 1)
  | attempts, fuel + 1 =>
    let a := attempts + 1
    let rc := rcOf a
    if rc = 0 then (rc, a)
    else if retries < a then (rc, a)
    else run_tests_attempts rcOf retries a fuel

/-- Embedding of `run_tests_with_retry` (`scripts/supervisor_loop.py`):
run the QA command, return on success, otherwise sleep and retry until
the attempt counter exceeds `retries`.  The sleep duration
`retry_sleep` only delays; it does not affect the result. -/
def run_tests_with_retry (rcOf : Nat → Int) (retries : Nat) (_retry_sleep : Nat) : Int × Nat :=
  run_tests_attempts rcOf retries 0 (retries + 1)

/-- Linear scan of `get_step`: skip non-dict entries, return the first
step dict whose `id` compares equal (Python `==`) to `current_step`. -/
def findStep : JArr → Int → Option JObj
  | .nil, _ => none
  | .cons (.obj fields) rest, cur =>
    if pyEqInt (jget fields "id") cur then some fields else findStep rest cur
  | .cons _ rest, cur => findStep rest cur

/-- Embedding of `get_step` (`scripts/supervisor_loop.py`): look up the
step whose `id` equals `current_step` in `blueprint.get("steps", [])`;
`none` means no step matched.  (A non-array `steps` value would raise
in Python; it is mapped to `none` here and is outside every claim.) -/
def get_step (blueprint : JObj) (current_step : Int) : Option JObj :=
  match (jget blueprint "steps").getD (.arr .nil) with
  | .arr steps => findStep steps current_step
  | _ => none

/-- Embedding of `step_requires_test` (`scripts/supervisor_loop.py`):
a missing or empty (falsy) step requires verification; an explicit
boolean `requires_test` wins; otherwise only steps named `verify` or
`finalize` require verification. -/
def step_requires_test : Option JObj → Bool
  | none => true
  | some .nil => true
  | some fields =>
    match jget fields "requires_test" with
    | some (.bool b) => b
    | _ =>
      decide (jget fields "name" = some (.str "verify")) ||
        decide (jget fields "name" = some (.str "finalize"))

/-- Embedding of `step_allows_checkpoint` (`scripts/supervisor_loop.py`). -/
def step_allows_checkpoint : Option JObj → Bool
  | none => false
  | some .nil => false
  | some fields => jvTruthy ((jget fields "checkpoint").getD .null)

/-- Embedding of `is_host_sync_step` (`scripts/supervisor_loop.py`):
the lowercased concatenation of `name` and `objective` must contain
`sync` together with `skill` or `../skills`. -/
def is_host_sync_step : Option JObj → Bool
  | none => false
  | some .nil => false
  | some fields =>
    let text := pyLower (pyStr ((jget fields "name").getD (.str "")) ++ " " ++
      pyStr ((jget fields "objective").getD (.str "")))
    listContainsSub text.data "sync".data &&
      (listContainsSub text.data "skill".data ||
        listContainsSub text.data "../skills".data)

/-- Steps of the default blueprint returned by `load_blueprint` when
`agent/BLUEPRINT.json` is absent. -/
def default_blueprint_steps : JArr :=
  .cons (.obj (.cons "id" (.int 1) (.cons "name" (.str "spec")
    (.cons "objective" (.str "Write PLAN.md") (.cons "checkpoint" (.bool true) .nil)))))
  (.cons (.obj (.cons "id" (.int 2) (.cons "name" (.str "implement")
    (.cons "objective" (.str "Implement changes") (.cons "checkpoint" (.bool true) .nil)))))
  (.cons (.obj (.cons "id" (.int 3) (.cons "name" (.str "verify")
    (.cons "objective" (.str "Run tests") (.cons "checkpoint" (.bool false) .nil)))))
  (.cons (.obj (.cons "id" (.int 4) (.cons "name" (.str "finalize")
    (.cons "objective" (.str "Write RESULT.md") (.cons "checkpoint" (.bool false) .nil)))))
  .nil)))

/-- Default blueprint returned by `load_blueprint` when
`agent/BLUEPRINT.json` is absent. -/
def default_blueprint : JObj :=
  .cons "version" (.str "1.0") (.cons "steps" (.arr default_blueprint_steps) .nil)

/-- Observable content of `agent/TRIGGER.json` at the start of an
iteration: missing file, unreadable file (`OSError` on read), file that
is not valid JSON (`json.JSONDecodeError`), or a parsed JSON value. -/
inductive TriggerFile where
  | absent
  | unreadable
  | invalid
  | parsed (v : JVal)
deriving DecidableEq

/-- Embedding of `load_trigger_payload` (`scripts/supervisor_loop.py`):
the payload is the parsed object when the file holds a JSON object and
the empty payload otherwise; the file is then unlinked regardless (the
code swallows `OSError` from `unlink`; deletion is modelled as
succeeding).  Returns the payload and the trigger-file state left for
the next iteration. -/
def load_trigger_payload : TriggerFile → Status × TriggerFile
  | .absent => (.nil, .absent)
  | .unreadable => (.nil, .absent)
  | .invalid => (.nil, .absent)
  | .parsed (.obj fields) => (fields, .absent)
  | .parsed _ => (.nil, .absent)

/-- Embedding of `should_skip_duplicate` (`scripts/trigger_supervisor.py`).
`now_epoch` reifies `int(datetime.now().timestamp())`.  A disabled
window or a missing file reports no duplicate; unparseable JSON reports
no duplicate; the stored fingerprint must be a string equal to the new
one and `requested_at_epoch` an int (Python `isinstance(_, int)` also
accepts booleans) within the window.  `none` models the uncaught
`OSError` of an unreadable existing file. -/
def should_skip_duplicate (tf : TriggerFile) (fingerprint : String)
    (dedup_seconds : Int) (now_epoch : Int) : Option Bool :=
  if dedup_seconds ≤ 0 then some false
  else
    match tf with
    | .absent => some false
    | .unreadable => none
    | .invalid => some false
    | .parsed (.obj fields) =>
      match jget fields "fingerprint" with
      | some (.str previous) =>
        if previous ≠ fingerprint then some false
        else
          match jget fields "requested_at_epoch" with
          | some (.int t) => some (decide (now_epoch - t ≤ dedup_seconds))
          | some (.bool b) =>
            some (decide (now_epoch - (if b then 1 else 0) ≤ dedup_seconds))
          | _ => some false
      | _ => some false
    | .parsed _ => some false

/-- Embedding of `save_status` (`scripts/supervisor_loop.py`): stamp
`last_update` and persist; the returned object is both the new file
content and (Python mutates the dict in place) the caller's local
status.  `now` reifies `datetime.now().isoformat(...)`. -/
def save_status (now : String) (status : Status) : Status :=
  jset status "last_update" (.str now)

/-- Branch of `apply_trigger` (`scripts/supervisor_loop.py`, lines
169-171) recording a non-empty trigger reason. -/
def trigger_reason_update (payload : Status) (st : Status) : Status :=
  match jget payload "reason" with
  | some (.str reason) =>
    if pyStrip reason ≠ "" then jset st "trigger_reason" (.str (pyStrip reason)) else st
  | _ => st

/-- Record keeping of a non-empty trigger reason (`apply_trigger`,
lines 169-171): leaves every other key untouched. -/
theorem jget_trigger_reason_update (payload st : Status) (key : String)
    (h : key ≠ "trigger_reason") :
    jget (trigger_reason_update payload st) key = jget st key := by
  unfold trigger_reason_update
  split
  all_goals try rfl
  split
  · exact jget_jset_ne _ _ _ _ h
  · rfl

/-- Embedding of `apply_trigger` (`scripts/supervisor_loop.py`), less
its file side effects (`_upsert_task_goal` on TASK.md and
`append_nightly_log`): force `idle`, clear the human flags, tag the
run as triggered, optionally reset to step 1, record a non-empty
trigger reason, re-normalize the namespace ids from the payload, and
persist (the trailing `save_status` stamps `last_update`). -/
def apply_trigger (status0 : Status) (payload : Status) (now : String) : Status :=
  let reset_step := match jget payload "reset_step" with
    | some (.bool b) => b
    | _ => true
  let st := jset status0 "state" (.str "idle")
  let st := jset st "needs_human" (.bool false)
  let st := jset st "human_question" (.str "")
  let st := jset st "last_error_sig" (.str "triggered")
  let st := jset st "last_action" (.str "triggered_run")
  let st := if reset_step
    then jset (jset st "current_step" (.int 1)) "checkpoint_id" (.str "")
    else st
  let st := trigger_reason_update payload st
  let st := jset st "tenant_id" (.str (normalize_identifier (jget payload "tenant_id")
    (pyStr ((jget st "tenant_id").getD (.str "default")))))
  let st := jset st "agent_id" (.str (normalize_identifier (jget payload "agent_id")
    (pyStr ((jget st "agent_id").getD (.str "main")))))
  let st := jset st "project_id" (.str (normalize_identifier (jget payload "project_id")
    (pyStr ((jget st "project_id").getD (.str "default")))))
  save_status now st

/-- The effective `(tenant, agent, project)` namespace. -/
structure RuntimeNamespace where
  tenant_id : String
  agent_id : String
  project_id : String
deriving DecidableEq

/-- Embedding of `resolve_runtime_namespace` (`scripts/supervisor_loop.py`);
the three fallback strings are the already-normalized defaults from the
memory-namespace configuration. -/
def resolve_runtime_namespace (status : Status)
    (nsTenant nsAgent nsProject : String) : RuntimeNamespace :=
  ⟨normalize_identifier (jget status "tenant_id") nsTenant,
   normalize_identifier (jget status "agent_id") nsAgent,
   normalize_identifier (jget status "project_id") nsProject⟩

/-- Embedding of `apply_namespace_to_status` (`scripts/supervisor_loop.py`). -/
def apply_namespace_to_status (status : Status) (ns : RuntimeNamespace) : Status :=
  jset (jset (jset status "tenant_id" (.str ns.tenant_id))
    "agent_id" (.str ns.agent_id)) "project_id" (.str ns.project_id)

/-- External invocations observable during one loop iteration, in
order: the primary agent call (cold start, resume, or the host-sync
subprocess), the single escalated fallback call, one
`run_tests_with_retry` execution of the QA command (with its attempt
count), the `run_workspace_tests` call made by each
`record_check_result`, and the auto-PR subprocess. -/
inductive Event where
  | codexStart
  | codexResume
  | hostSyncRun
  | fallback
  | qaTests (attempts : Nat)
  | workspaceTests
  | autopr
deriving DecidableEq

/-- Whether the iteration ends the scheduling session (`return`) or
sleeps and loops (`continue` / fallthrough to `time.sleep`). -/
inductive Outcome where
  | exitSession
  | continueLoop
deriving DecidableEq

/-- The observable result of one loop iteration: the final persisted
status document, the updated attempt counter, the ordered external
invocations, and whether the session ends. -/
structure IterResult where
  file : Status
  attempts : Nat
  events : List Event
  outcome : Outcome
deriving DecidableEq

/-- Static configuration of one `loop` call: CLI arguments plus the
values resolved once before the `while` loop (`sync_target`,
`has_external_add_dirs`, autopr and QA settings, normalized
memory-namespace defaults). -/
structure Cfg where
  run_once : Bool
  full_auto : Bool
  force_start : Bool
  max_attempts : Int
  codex_timeout : Int
  has_external_add_dirs : Bool
  sync_target : Option String
  autopr_enabled : Bool
  autopr_required : Bool
  qa_retries : Nat
  qa_retry_sleep : Nat
  ns_tenant_id : String
  ns_agent_id : String
  ns_project_id : String

/-- Outcomes of the external world during one iteration: the trigger
file's content, the wall-clock strings, the `PLAN.md` / `RESULT.md`
mtimes observed at the three snapshot points, subprocess exit codes,
any `STATUS.json` rewrite performed by the external agent during an
invocation, the QA-command exit code per attempt, and the checkpoint
artifact name produced by `write_checkpoint`. -/
structure Env where
  trigger : TriggerFile
  now : String
  plan_mtime0 : Nat
  result_mtime0 : Nat
  plan_mtime1 : Nat
  result_mtime1 : Nat
  plan_mtime2 : Nat
  result_mtime2 : Nat
  primary_rc : Int
  fallback_rc : Int
  autopr_rc : Int
  autopr_msg : String
  status_written_primary : Option Status
  status_written_fallback : Option Status
  qa_rc : Nat → Int
  checkpoint_name : String

/-- State handed from the pre-invocation phase of an iteration to the
invocation phase: the persisted status (after the `state=running`
save), the resolved step, and the host-sync / cold-start decisions. -/
structure InvokeCtx where
  file : Status
  step : JObj
  hostSync : Bool
  startNeeded : Bool

/-- Pre-invocation phase of one iteration of `loop`
(`scripts/supervisor_loop.py`, from the top of the `while` body to the
`state=running` save): consume the trigger, reconcile the namespace,
honour terminal states and the attempt budget, default and resolve
`current_step`, detect host-sync steps, and pick the invocation form.
Returns either a finished iteration (`Sum.inl`) or the context for the
invocation phase (`Sum.inr`); `none` models an uncaught exception
(non-numeric `current_step`). -/
def loopIterA (cfg : Cfg) (blueprint : JObj) (attempts : Nat) (file0 : Status)
    (env : Env) : Option (IterResult ⊕ InvokeCtx) :=
  let status0 := file0
  let trigger := (load_trigger_payload env.trigger).1
  let status1 := if trigger ≠ .nil then apply_trigger status0 trigger env.now else status0
  let ns := resolve_runtime_namespace status1 cfg.ns_tenant_id cfg.ns_agent_id cfg.ns_project_id
  let status2 :=
    if jget status1 "tenant_id" ≠ some (.str ns.tenant_id) ∨
        jget status1 "agent_id" ≠ some (.str ns.agent_id) ∨
        jget status1 "project_id" ≠ some (.str ns.project_id)
    then save_status env.now (apply_namespace_to_status status1 ns)
    else status1
  let state := (jget status2 "state").getD (.str "idle")
  if state = .str "done" ∨ state = .str "blocked" then
    some (.inl ⟨status2, attempts, [], .exitSession⟩)
  else if 0 < cfg.max_attempts ∧ cfg.max_attempts ≤ (attempts : Int) then
    let st := jset status2 "state" (.str "blocked")
    let st := jset st "needs_human" (.bool true)
    let st := jset st "human_question" (.str ("Reached max_attempts=" ++
      toString cfg.max_attempts ++ " without completion. Likely repeated timeout/no-progress. Consider refining TASK.md or increasing --codex-timeout."))
    let st := jset st "last_error_sig" (.str "max_attempts")
    let st := save_status env.now st
    some (.inl ⟨st, attempts, [.workspaceTests], .exitSession⟩)
  else
    let status3 :=
      if ¬pyTruthy (jget status2 "current_step")
      then save_status env.now (jset status2 "current_step" (.int 1))
      else status2
    match pyInt ((jget status3 "current_step").getD (.int 1)) with
    | none => none
    | some cur =>
      match get_step blueprint cur with
      | none =>
        let st := save_status env.now (jset status3 "state" (.str "done"))
        some (.inl ⟨st, attempts, [], .exitSession⟩)
      | some fields =>
        let hostSync := is_host_sync_step (some fields)
        if hostSync ∧ cfg.sync_target = none then
          let st := jset status3 "state" (.str "blocked")
          let st := jset st "needs_human" (.bool true)
          let st := jset st "human_question" (.str "Sync step detected but no writable sync target configured. Set openclaw.json supervisor.add_dirs (e.g. ../skills/openclaw-dev) or pass --add-dir.")
          let st := jset st "last_error_sig" (.str "sync_target_missing")
          let st := save_status env.now st
          some (.inl ⟨st, attempts, [.workspaceTests], .exitSession⟩)
        else
          let startNeeded := cfg.force_start || !pyTruthy (jget status3 "last_cmd") ||
            cfg.has_external_add_dirs
          let st := jset status3 "state" (.str "running")
          let st := jset st "last_cmd" (.str (
            if hostSync then
              "sync_to_skill.py --target " ++
                (match cfg.sync_target with | some t => t | none => "None")
            else if startNeeded then
              (if cfg.full_auto then "codex exec --full-auto" else "codex exec")
            else "codex exec resume --last"))
          let st := save_status env.now st
          some (.inr ⟨st, fields, hostSync, startNeeded⟩)

/-- Post-invocation phase of one iteration of `loop`
(`scripts/supervisor_loop.py`, from the `codex_rc == 124` check to the
end of the `while` body): classify timeout / no-progress / failure,
run verification with retry, persist the test outcome, advance or hold
the step, record the outcome, and optionally run auto-PR.  `codex_rc`
and the two `*_after` mtimes are the values after the optional
fallback call; `file` is the persisted status at this point (the agent
may have rewritten it during the invocation).  `none` models an
uncaught exception (non-numeric `current_step`). -/
def loopIterC (cfg : Cfg) (blueprint : JObj) (env : Env) (step : JObj)
    (hostSync : Bool) (codex_rc : Int)
    (plan_before result_before plan_after result_after : Nat)
    (file : Status) : Option (Status × List Event × Outcome) :=
  if codex_rc = 124 ∧ ¬hostSync then
    if plan_before < plan_after ∨ result_before < result_after then
      let st := file
      let st := jset st "state" (.str "idle")
      let st := jset st "needs_human" (.bool false)
      let st := jset st "human_question" (.str "")
      let st := jset st "last_error_sig" (.str "codex_timeout_progress")
      let st := jset st "last_action" (.str "codex_timeout_with_progress")
      let st := save_status env.now st
      some (st, [.workspaceTests], if cfg.run_once then .exitSession else .continueLoop)
    else if ¬cfg.run_once then some (file, [], .continueLoop)
    else
      let st := file
      let st := jset st "state" (.str "blocked")
      let st := jset st "needs_human" (.bool true)
      let st := jset st "human_question" (.str ("codex exec timed out after " ++
        toString cfg.codex_timeout ++ "s; plan_updated=" ++
        (if plan_before < plan_after then "True" else "False") ++ ", result_updated=" ++
        (if result_before < result_after then "True" else "False") ++
        ". Consider increasing --codex-timeout, refining TASK.md, or reducing repo scope."))
      let st := jset st "last_error_sig" (.str "codex_timeout")
      let st := save_status env.now st
      some (st, [.workspaceTests], .exitSession)
  else if ¬hostSync ∧ plan_after = plan_before ∧ result_after = result_before then
    if ¬cfg.run_once then some (file, [], .continueLoop)
    else
      let st := file
      let st := jset st "state" (.str "blocked")
      let st := jset st "needs_human" (.bool true)
      let st := jset st "human_question" (.str "codex exec finished but made no progress (PLAN.md/RESULT.md unchanged). Likely prompt too vague or codex stuck in inspection. Refine TASK.md with explicit file edits.")
      let st := jset st "last_error_sig" (.str "codex_no_progress")
      let st := save_status env.now st
      some (st, [.workspaceTests], .exitSession)
  else
    let st := file
    if codex_rc ≠ 0 then
      if ¬cfg.run_once then some (file, [], .continueLoop)
      else
        let st := jset st "state" (.str "blocked")
        let st := jset st "needs_human" (.bool true)
        let st := if hostSync
          then jset (jset st "human_question" (.str "sync_to_skill.py failed; inspect agent/sync_tail.log and verify target path permissions."))
            "last_error_sig" (.str "sync_failed")
          else jset (jset st "human_question" (.str "codex exec failed; inspect logs and agent/RESULT.md"))
            "last_error_sig" (.str "codex_failed")
        let st := save_status env.now st
        some (st, [.workspaceTests], .exitSession)
    else
      let tr := run_tests_with_retry env.qa_rc cfg.qa_retries cfg.qa_retry_sleep
      let test_rc := tr.1
      let test_attempts := tr.2
      let st := jset st "last_test_ok" (.bool (decide (test_rc = 0)))
      let st := jset st "last_test_attempts" (.int (test_attempts : Int))
      let st := if ¬(jget st "state" = some (.str "blocked") ∨ jget st "state" = some (.str "done"))
        then jset st "state" (.str "idle") else st
      let st := save_status env.now st
      let step_ok := !step_requires_test (some step) || decide (test_rc = 0)
      let afterAdvance : Option Status :=
        if step_ok then
          let st1 := if step_allows_checkpoint (some step)
            then jset st "checkpoint_id" (.str env.checkpoint_name)
            else st
          match pyInt ((jget st1 "current_step").getD (.int 1)) with
          | none => none
          | some cur =>
            let st2 := jset st1 "current_step" (.int (cur + 1))
            let st3 := if get_step blueprint (cur + 1) = none ∧
                ¬(jget st2 "state" = some (.str "blocked"))
              then jset st2 "state" (.str "done")
              else st2
            some (save_status env.now st3)
        else some st
      match afterAdvance with
      | none => none
      | some f2 =>
        if test_rc = 0 then
          let st4 := f2
          if jget st4 "state" = some (.str "done") ∧ cfg.autopr_enabled then
            if env.autopr_rc ≠ 0 ∧ cfg.autopr_required then
              let st5 := jset st4 "state" (.str "blocked")
              let st5 := jset st5 "needs_human" (.bool true)
              let st5 := jset st5 "human_question" (.str ("Auto-PR failed with exit=" ++
                toString env.autopr_rc ++ ". " ++ env.autopr_msg ++ ". Inspect agent/autopr_tail.log."))
              let st5 := jset st5 "last_error_sig" (.str "autopr_failed")
              let st5 := save_status env.now st5
              some (st5, [.qaTests test_attempts, .workspaceTests, .autopr, .workspaceTests],
                .exitSession)
            else
              some (f2, [.qaTests test_attempts, .workspaceTests, .autopr],
                if cfg.run_once then .exitSession else .continueLoop)
          else
            some (f2, [.qaTests test_attempts, .workspaceTests],
              if cfg.run_once then .exitSession else .continueLoop)
        else
          some (f2, [.qaTests test_attempts, .workspaceTests],
            if cfg.run_once then .exitSession else .continueLoop)

/-- Invocation phase of one iteration of `loop`
(`scripts/supervisor_loop.py`, mtime snapshot, primary invocation and
single-shot fallback): record the primary call, increment the attempt
counter, and issue the escalated fallback exactly when the step is not
a host-sync step, the primary exit code is in `(124, 0)`, and neither
mtime moved; then hand over to the classification phase with the
post-fallback exit code and mtimes. -/
def loopIterB (cfg : Cfg) (blueprint : JObj) (attempts : Nat) (env : Env)
    (ctx : InvokeCtx) : Option IterResult :=
  let plan_before := env.plan_mtime0
  let result_before := env.result_mtime0
  let primaryEv : Event := if ctx.hostSync then .hostSyncRun
    else if ctx.startNeeded then .codexStart else .codexResume
  let rc1 := env.primary_rc
  let file1 := env.status_written_primary.getD ctx.file
  let attempts1 := attempts + 1
  if ¬ctx.hostSync ∧ (rc1 = 124 ∨ rc1 = 0) ∧
      env.plan_mtime1 = plan_before ∧ env.result_mtime1 = result_before then
    let rc2 := env.fallback_rc
    let file2 := env.status_written_fallback.getD file1
    match loopIterC cfg blueprint env ctx.step ctx.hostSync rc2 plan_before result_before
        env.plan_mtime2 env.result_mtime2 file2 with
    | none => none
    | some (f, evs, oc) => some ⟨f, attempts1, primaryEv :: .fallback :: evs, oc⟩
  else
    match loopIterC cfg blueprint env ctx.step ctx.hostSync rc1 plan_before result_before
        env.plan_mtime1 env.result_mtime1 file1 with
    | none => none
    | some (f, evs, oc) => some ⟨f, attempts1, primaryEv :: evs, oc⟩

/-- One full iteration of the `while` body of `loop`
(`scripts/supervisor_loop.py`): the pre-invocation phase followed, when
the iteration reaches the agent, by the invocation and classification
phases. -/
def loopIter (cfg : Cfg) (blueprint : JObj) (attempts : Nat) (file0 : Status)
    (env : Env) : Option IterResult :=
  match loopIterA cfg blueprint attempts file0 env with
  | none => none
  | some (.inl r) => some r
  | some (.inr ctx) => loopIterB cfg blueprint attempts env ctx

/-- Truncate to a 32-bit word. -/
def w32 (x : Nat) : Nat := x % 4294967296

/-- Right rotation of a 32-bit word. -/
def rotr32 (n x : Nat) : Nat := w32 ((x >>> n) ||| (x <<< (32 - n)))

/-- Bitwise complement of a 32-bit word. -/
def not32 (x : Nat) : Nat := x ^^^ 4294967295

/-- SHA-256 round constants. -/
def sha256K : List Nat :=
  [1116352408, 1899447441, 3049323471, 3921009573, 961987163, 1508970993,
   2453635748, 2870763221, 3624381080, 310598401, 607225278, 1426881987,
   1925078388, 2162078206, 2614888103, 3248222580, 3835390401, 4022224774,
   264347078, 604807628, 770255983, 1249150122, 1555081692, 1996064986,
   2554220882, 2821834349, 2952996808, 3210313671, 3336571891, 3584528711,
   113926993, 338241895, 666307205, 773529912, 1294757372, 1396182291,
   1695183700, 1986661051, 2177026350, 2456956037, 2730485921, 2820302411,
   3259730800, 3345764771, 3516065817, 3600352804, 4094571909, 275423344,
   430227734, 506948616, 659060556, 883997877, 958139571, 1322822218,
   1537002063, 1747873779, 1955562222, 2024104815, 2227730452, 2361852424,
   2428436474, 2756734187, 3204031479, 3329325298]

/-- SHA-256 initial hash state. -/
def sha256H0 : List Nat :=
  [1779033703, 3144134277, 1013904242, 2773480762, 1359893119, 2600822924,
   528734635, 1541459225]

/-- Message-schedule sigma functions. -/
def sha256s0 (x : Nat) : Nat := rotr32 7 x ^^^ rotr32 18 x ^^^ (x >>> 3)

/-- Second message-schedule sigma function. -/
def sha256s1 (x : Nat) : Nat := rotr32 17 x ^^^ rotr32 19 x ^^^ (x >>> 10)

/-- Compression sigma functions. -/
def sha256S0 (x : Nat) : Nat := rotr32 2 x ^^^ rotr32 13 x ^^^ rotr32 22 x

/-- Second compression sigma function. -/
def sha256S1 (x : Nat) : Nat := rotr32 6 x ^^^ rotr32 11 x ^^^ rotr32 25 x

/-- Big-endian 32-bit words from a byte list. -/
def bytesToWords : List Nat → List Nat
  | b0 :: b1 :: b2 :: b3 :: rest => (((b0 * 256 + b1) * 256 + b2) * 256 + b3) :: bytesToWords rest
  | _ => []

/-- One message-schedule extension step (append word `t` from words
`t-16`, `t-15`, `t-7`, `t-2`). -/
def sha256ExtendStep (acc : List Nat) : List Nat :=
  let n := acc.length
  acc ++ [w32 (acc.getD (n - 16) 0 + sha256s0 (acc.getD (n - 15) 0) +
    acc.getD (n - 7) 0 + sha256s1 (acc.getD (n - 2) 0))]

/-- Extend 16 schedule words to 64. -/
def sha256Schedule (w : List Nat) : List Nat :=
  (List.range 48).foldl (fun acc _ => sha256ExtendStep acc) w

/-- One SHA-256 compression round. -/
def sha256Round (st : Nat × Nat × Nat × Nat × Nat × Nat × Nat × Nat) (kw : Nat × Nat) :
    Nat × Nat × Nat × Nat × Nat × Nat × Nat × Nat :=
  let (a, b, c, d, e, f, g, h) := st
  let t1 := w32 (h + sha256S1 e + ((e &&& f) ^^^ (not32 e &&& g)) + kw.1 + kw.2)
  let t2 := w32 (sha256S0 a + ((a &&& b) ^^^ (a &&& c) ^^^ (b &&& c)))
  (w32 (t1 + t2), a, b, c, w32 (d + t1), e, f, g)

/-- Compress one 64-byte chunk into the running hash state. -/
def sha256Compress (st : List Nat) (chunk : List Nat) : List Nat :=
  let w := sha256Schedule (bytesToWords chunk)
  let s := (st.getD 0 0, st.getD 1 0, st.getD 2 0, st.getD 3 0,
    st.getD 4 0, st.getD 5 0, st.getD 6 0, st.getD 7 0)
  let r := (sha256K.zip w).foldl sha256Round s
  [w32 (st.getD 0 0 + r.1), w32 (st.getD 1 0 + r.2.1), w32 (st.getD 2 0 + r.2.2.1),
   w32 (st.getD 3 0 + r.2.2.2.1), w32 (st.getD 4 0 + r.2.2.2.2.1),
   w32 (st.getD 5 0 + r.2.2.2.2.2.1), w32 (st.getD 6 0 + r.2.2.2.2.2.2.1),
   w32 (st.getD 7 0 + r.2.2.2.2.2.2.2)]

/-- MD-strengthening padding: `0x80`, zeros to 56 mod 64, then the
bit length as eight big-endian bytes. -/
def sha256Pad (msg : List Nat) : List Nat :=
  let bitLen := msg.length * 8
  let zeros := (119 - msg.length % 64) % 64
  msg ++ [128] ++ List.replicate zeros 0 ++
    [bitLen >>> 56 % 256, bitLen >>> 48 % 256, bitLen >>> 40 % 256, bitLen >>> 32 % 256,
     bitLen >>> 24 % 256, bitLen >>> 16 % 256, bitLen >>> 8 % 256, bitLen % 256]

/-- Split a padded message into 64-byte chunks. -/
def sha256Chunks (l : List Nat) : List (List Nat) :=
  if h : l = [] then [] else
    have : (l.drop 64).length < l.length := by
      cases l with
      | nil => exact absurd rfl h
      | cons a t => simp [List.length_drop]; omega
    l.take 64 :: sha256Chunks (l.drop 64)
termination_by l.length

/-- SHA-256 digest (32 bytes) of a byte list. -/
def sha256Bytes (msg : List Nat) : List Nat :=
  let final := (sha256Chunks (sha256Pad msg)).foldl sha256Compress sha256H0
  final.foldr (fun word acc =>
    word >>> 24 % 256 :: word >>> 16 % 256 :: word >>> 8 % 256 :: word % 256 :: acc) []

/-- Lowercase hex digit. -/
def hexDigit (n : Nat) : Char :=
  if n < 10 then Char.ofNat ('0'.toNat + n) else Char.ofNat ('a'.toNat + n - 10)

/-- Lowercase hex string of a byte list (`hexdigest`). -/
def bytesToHex (bs : List Nat) : String :=
  ⟨bs.foldr (fun b acc => hexDigit (b / 16 % 16) :: hexDigit (b % 16) :: acc) []⟩

/-- UTF-8 encoding of a string (`payload.encode("utf-8")`). -/
def utf8Bytes (s : String) : List Nat := s.toUTF8.toList.map (fun b => b.toNat)

/-- Model of `hashlib.sha256(s.encode("utf-8")).hexdigest()`. -/
def sha256Hex (s : String) : String := bytesToHex (sha256Bytes (utf8Bytes s))

/-- The pipe-joined payload string hashed by `trigger_fingerprint`
(`scripts/trigger_supervisor.py`, the f-string at lines 87-90). -/
def trigger_fingerprint_payload (reason task : String) (reset_step : Bool)
    (tenant_id agent_id project_id : String) : String :=
  pyStrip reason ++ "|" ++ pyStrip task ++ "|" ++ (if reset_step then "1" else "0") ++ "|" ++
    pyStrip tenant_id ++ "|" ++ pyStrip agent_id ++ "|" ++ pyStrip project_id

/-- Embedding of `trigger_fingerprint` (`scripts/trigger_supervisor.py`):
the SHA-256 hex digest of the stripped, pipe-joined semantic fields. -/
def trigger_fingerprint (reason task : String) (reset_step : Bool)
    (tenant_id agent_id project_id : String) : String :=
  sha256Hex (trigger_fingerprint_payload reason task reset_step tenant_id agent_id project_id)

/-- Lowercase-alphanumeric test used by the claimed reading of
identifier normalization ("non-alphanumeric runs collapsed"). -/
def isLowerAlnum (c : Char) : Bool :=
  ('a' ≤ c && c ≤ 'z') || ('0' ≤ c && c ≤ '9')

/-- Collapse of maximal non-alphanumeric runs to a single hyphen, as
the claimed reading of the normalization would have it. -/
def collapseNonAlnum : Bool → List Char → List Char
  | _, [] => []
  | inRun, c :: rest =>
    if isLowerAlnum c then c :: collapseNonAlnum false rest
    else if inRun then collapseNonAlnum true rest
    else '-' :: collapseNonAlnum true rest

/-- Identifier normalization as the claim words it: trimmed, lowercased,
with every maximal run of non-alphanumeric characters collapsed to a
single hyphen (so dots, underscores and hyphens would also collapse). -/
def normalize_identifier_claimed (value : Option JVal) (fallback : String) : String :=
  match value with
  | some (.str s) =>
    let cleaned := pyLower (pyStrip s)
    if cleaned = "" then fallback else ⟨collapseNonAlnum false cleaned.data⟩
  | _ => fallback

/-- Run-collapsing written as a left fold carrying the output so far and
an inside-a-disallowed-run flag: an independent rendering of "every
maximal run of characters outside `[a-z0-9._-]` becomes one hyphen",
used to state the amended normalization claim. -/
def collapseRunsFold (l : List Char) : List Char :=
  (l.foldl (fun acc c =>
    if allowedIdentChar c then (acc.1 ++ [c], false)
    else if acc.2 then acc else (acc.1 ++ ['-'], true)) (([] : List Char), false)).1

/-- Identifier normalization as amended: non-strings and
empty-after-trim inputs fall back; otherwise the trimmed, lowercased
input has every maximal run of characters that are neither lowercase
alphanumerics nor `.`, `_`, `-` collapsed to a single hyphen. -/
def normalize_identifier_amended (value : Option JVal) (fallback : String) : String :=
  match value with
  | some (.str s) =>
    let cleaned := pyLower (pyStrip s)
    if cleaned = "" then fallback else ⟨collapseRunsFold cleaned.data⟩
  | _ => fallback

theorem collapseRunsFold_go (l : List Char) : ∀ (acc : List Char) (flag : Bool),
    (l.foldl (fun acc c =>
      if allowedIdentChar c then (acc.1 ++ [c], false)
      else if acc.2 then acc else (acc.1 ++ ['-'], true)) (acc, flag)).1 =
      acc ++ collapseDisallowed flag l := by
  induction l with
  | nil => intro acc flag; simp [collapseDisallowed]
  | cons c rest ih =>
    intro acc flag
    by_cases hc : allowedIdentChar c
    · simp [List.foldl_cons, hc, collapseDisallowed, ih]
    · cases flag with
      | true => simp [List.foldl_cons, hc, collapseDisallowed, ih]
      | false => simp [List.foldl_cons, hc, collapseDisallowed, ih]

/-- C9 counterexample: on input `"a.b"` the code keeps the dot
(`re.sub` only collapses characters outside `[a-z0-9._-]`), while the
claimed "non-alphanumeric runs collapse to `-`" reading would produce
`"a-b"`. -/
theorem c9_normalize_identifier_counterexample :
    normalize_identifier (some (.str "a.b")) "fb" = "a.b" ∧
    normalize_identifier_claimed (some (.str "a.b")) "fb" = "a-b" ∧
    ("a.b" : String) ≠ "a-b" := by decide

/-- C9 (amended): identifier normalization returns the fallback on
non-string or empty-after-trim inputs, and otherwise collapses every
maximal run of characters outside `[a-z0-9._-]` (rather than every
non-alphanumeric run) in the trimmed, lowercased input to a single
hyphen. -/
theorem c9_normalize_identifier (value : Option JVal) (fallback : String) :
    normalize_identifier value fallback = normalize_identifier_amended value fallback := by
  cases value with
  | none => rfl
  | some v =>
    cases v with
    | str s =>
      show normalize_identifier (some (.str s)) fallback = _
      unfold normalize_identifier normalize_identifier_amended
      by_cases h : pyLower (pyStrip s) = ""
      · simp [h]
      · simp only [h, if_false]
        unfold collapseRunsFold
        rw [collapseRunsFold_go]
        simp
    | null => rfl
    | bool b => rfl
    | int n => rfl
    | arr xs => rfl
    | obj fs => rfl

/-- C3 counterexample: a step dict with no `requires_test` flag whose
name is `implement` (neither `verify` nor `finalize`) does **not**
require verification under `step_requires_test`, contradicting the
claimed requires-verification default for unflagged steps. -/
theorem c3_step_requires_test_counterexample :
    step_requires_test (some (.cons "id" (.int 2)
      (.cons "name" (.str "implement") .nil))) = false ∧
    ("implement" : String) ≠ "verify" ∧ ("implement" : String) ≠ "finalize" := by decide

/-- C3 (amended): an explicit boolean `requires_test` is returned
exactly; a non-empty step dict without a boolean flag requires
verification precisely when its name is `verify` or `finalize` (the
unflagged default is *skip* verification for all other names); a
missing step requires verification. -/
theorem c3_step_requires_test (fields : JObj) (hne : fields ≠ JObj.nil) :
    (∀ b, jget fields "requires_test" = some (.bool b) →
      step_requires_test (some fields) = b) ∧
    ((∀ b, jget fields "requires_test" ≠ some (.bool b)) →
      (step_requires_test (some fields) = true ↔
        (jget fields "name" = some (.str "verify") ∨
          jget fields "name" = some (.str "finalize")))) ∧
    step_requires_test none = true := by
  obtain ⟨k, v, rest, rfl⟩ : ∃ k v rest, fields = JObj.cons k v rest := by
    cases fields with
    | nil => exact absurd rfl hne
    | cons k v rest => exact ⟨k, v, rest, rfl⟩
  refine ⟨?_, ?_, rfl⟩
  · intro b hb
    simp [step_requires_test, hb]
  · intro hnb
    match hr : jget (JObj.cons k v rest) "requires_test" with
    | some (.bool b) => exact absurd hr (hnb b)
    | none => simp [step_requires_test, hr, decide_eq_true_eq]
    | some .null => simp [step_requires_test, hr, decide_eq_true_eq]
    | some (.int n) => simp [step_requires_test, hr, decide_eq_true_eq]
    | some (.str s) => simp [step_requires_test, hr, decide_eq_true_eq]
    | some (.arr xs) => simp [step_requires_test, hr, decide_eq_true_eq]
    | some (.obj fs) => simp [step_requires_test, hr, decide_eq_true_eq]

/-- Witness for the amended C3 theorem at a concrete unflagged
`verify` step. -/
theorem c3_step_requires_test_witness :
    step_requires_test (some (.cons "name" (.str "verify") .nil)) = true ∧
    step_requires_test none = true := by
  have h := c3_step_requires_test (.cons "name" (.str "verify") .nil) (by decide)
  refine ⟨(h.2.1 (by decide)).mpr (by decide), h.2.2⟩

/-- C10: a missing trigger file yields the empty payload; unreadable,
unparseable or non-object content also yields the empty payload; in
every case the trigger file is gone afterwards, so a malformed trigger
is consumed silently and never observed again. -/
theorem c10_load_trigger_payload (tf : TriggerFile) :
    (load_trigger_payload tf).2 = TriggerFile.absent ∧
    ((∀ fields, tf ≠ .parsed (.obj fields)) → (load_trigger_payload tf).1 = JObj.nil) ∧
    (tf = .absent → load_trigger_payload tf = (JObj.nil, .absent)) := by
  cases tf with
  | absent => exact ⟨rfl, fun _ => rfl, fun _ => rfl⟩
  | unreadable => exact ⟨rfl, fun _ => rfl, fun h => by cases h⟩
  | invalid => exact ⟨rfl, fun _ => rfl, fun h => by cases h⟩
  | parsed v =>
    cases v with
    | obj fs => exact ⟨rfl, fun h => absurd rfl (h fs), fun h => by cases h⟩
    | null => exact ⟨rfl, fun _ => rfl, fun h => by cases h⟩
    | bool b => exact ⟨rfl, fun _ => rfl, fun h => by cases h⟩
    | int n => exact ⟨rfl, fun _ => rfl, fun h => by cases h⟩
    | str s => exact ⟨rfl, fun _ => rfl, fun h => by cases h⟩
    | arr xs => exact ⟨rfl, fun _ => rfl, fun h => by cases h⟩

/-- Witness for C10 at a concrete malformed trigger (valid JSON that is
not an object). -/
theorem c10_load_trigger_payload_witness :
    (load_trigger_payload (.parsed (.int 7))).2 = TriggerFile.absent ∧
    (load_trigger_payload (.parsed (.int 7))).1 = JObj.nil := by
  have h := c10_load_trigger_payload (.parsed (.int 7))
  exact ⟨h.1, h.2.1 (by intro fields hc; cases hc)⟩

/-- C7: for a stored trigger record carrying a string fingerprint and an
integer `requested_at_epoch`, a positive window reports a duplicate
exactly when the stored fingerprint equals the new one and the elapsed
time is at most the window; a zero (disabled) window never reports a
duplicate. -/
theorem c7_should_skip_duplicate (fields : JObj) (prev : String) (t : Int)
    (fp : String) (w now : Int)
    (hfp : jget fields "fingerprint" = some (.str prev))
    (ht : jget fields "requested_at_epoch" = some (.int t)) :
    (0 < w →
      (should_skip_duplicate (.parsed (.obj fields)) fp w now = some true ↔
        (prev = fp ∧ now - t ≤ w))) ∧
    should_skip_duplicate (.parsed (.obj fields)) fp 0 now = some false := by
  constructor
  · intro hw
    simp only [should_skip_duplicate, if_neg (show ¬w ≤ 0 by omega), hfp, ht]
    by_cases hpf : prev = fp
    · subst hpf
      simp [decide_eq_true_eq]
    · simp [hpf]
  · simp only [should_skip_duplicate, if_pos (show (0 : Int) ≤ 0 by omega)]

/-- Witness for C7 at a concrete stored record, new fingerprint and
window. -/
theorem c7_should_skip_duplicate_witness :
    (should_skip_duplicate
      (.parsed (.obj (.cons "fingerprint" (.str "f1")
        (.cons "requested_at_epoch" (.int 100) .nil)))) "f1" 90 150 = some true ↔
      (("f1" : String) = "f1" ∧ (150 : Int) - 100 ≤ 90)) ∧
    should_skip_duplicate
      (.parsed (.obj (.cons "fingerprint" (.str "f1")
        (.cons "requested_at_epoch" (.int 100) .nil)))) "f1" 0 150 = some false := by
  have h := c7_should_skip_duplicate
    (.cons "fingerprint" (.str "f1") (.cons "requested_at_epoch" (.int 100) .nil))
    "f1" 100 "f1" 90 150 (by decide) (by decide)
  exact ⟨h.1 (by omega), h.2⟩

theorem run_tests_attempts_spec (rcOf : Nat → Int) (retries : Nat) :
    ∀ (fuel attempts : Nat), attempts + fuel = retries + 1 → 1 ≤ fuel →
      (attempts + 1 ≤ (run_tests_attempts rcOf retries attempts fuel).2 ∧
        (run_tests_attempts rcOf retries attempts fuel).2 ≤ retries + 1) ∧
      (run_tests_attempts rcOf retries attempts fuel).1 =
        rcOf (run_tests_attempts rcOf retries attempts fuel).2 ∧
      ((run_tests_attempts rcOf retries attempts fuel).1 = 0 →
        ∀ j, attempts + 1 ≤ j → j < (run_tests_attempts rcOf retries attempts fuel).2 →
          rcOf j ≠ 0) ∧
      ((run_tests_attempts rcOf retries attempts fuel).1 ≠ 0 →
        (run_tests_attempts rcOf retries attempts fuel).2 = retries + 1 ∧
          ∀ j, attempts + 1 ≤ j → j ≤ retries + 1 → rcOf j ≠ 0) := by
  intro fuel
  induction fuel with
  | zero => intro attempts _ hpos; exact absurd hpos (by omega)
  | succ fuel ih =>
    intro attempts hinv _
    have hstep : run_tests_attempts rcOf retries attempts (fuel + 1) =
        if rcOf (attempts + 1) = 0 then (rcOf (attempts + 1), attempts + 1)
        else if retries < attempts + 1 then (rcOf (attempts + 1), attempts + 1)
        else run_tests_attempts rcOf retries (attempts + 1) fuel := rfl
    by_cases h0 : rcOf (attempts + 1) = 0
    · rw [hstep, if_pos h0]
      dsimp only
      exact ⟨⟨le_refl _, by omega⟩, rfl, fun _ j h1 h2 => by omega,
        fun hne => absurd h0 hne⟩
    · by_cases hstop : retries < attempts + 1
      · rw [hstep, if_neg h0, if_pos hstop]
        dsimp only
        refine ⟨⟨le_refl _, by omega⟩, rfl, fun hz => absurd hz h0,
          fun _ => ⟨by omega, fun j hj1 hj2 => ?_⟩⟩
        have hj : j = attempts + 1 := by omega
        rw [hj]; exact h0
      · have hrec := ih (attempts + 1) (by omega) (by omega)
        rw [hstep, if_neg h0, if_neg hstop]
        refine ⟨⟨by omega, hrec.1.2⟩, hrec.2.1, ?_, ?_⟩
        · intro hz j hj1 hj2
          by_cases hj : j = attempts + 1
          · rw [hj]; exact h0
          · exact hrec.2.2.1 hz j (by omega) hj2
        · intro hnz
          refine ⟨(hrec.2.2.2 hnz).1, fun j hj1 hj2 => ?_⟩
          by_cases hj : j = attempts + 1
          · rw [hj]; exact h0
          · exact (hrec.2.2.2 hnz).2 j (by omega) hj2

/-- C5: `run_tests_with_retry` always terminates with an attempt count
between 1 and `retries + 1`; the returned code is the code of the last
attempt made; on success every earlier attempt failed (so the count is
the index of the first success); on failure all `retries + 1` attempts
were made and failed (the last non-zero code is returned); and with
`retries = 0` exactly one attempt happens even on failure. -/
theorem c5_run_tests_with_retry (rcOf : Nat → Int) (retries retry_sleep : Nat) :
    (1 ≤ (run_tests_with_retry rcOf retries retry_sleep).2 ∧
      (run_tests_with_retry rcOf retries retry_sleep).2 ≤ retries + 1) ∧
    (run_tests_with_retry rcOf retries retry_sleep).1 =
      rcOf (run_tests_with_retry rcOf retries retry_sleep).2 ∧
    ((run_tests_with_retry rcOf retries retry_sleep).1 = 0 →
      ∀ j, 1 ≤ j → j < (run_tests_with_retry rcOf retries retry_sleep).2 → rcOf j ≠ 0) ∧
    ((run_tests_with_retry rcOf retries retry_sleep).1 ≠ 0 →
      (run_tests_with_retry rcOf retries retry_sleep).2 = retries + 1 ∧
        ∀ j, 1 ≤ j → j ≤ retries + 1 → rcOf j ≠ 0) ∧
    (retries = 0 → (run_tests_with_retry rcOf retries retry_sleep).2 = 1 ∧
      (run_tests_with_retry rcOf retries retry_sleep).1 = rcOf 1) := by
  have h := run_tests_attempts_spec rcOf retries (retries + 1) 0 (by omega) (by omega)
  unfold run_tests_with_retry
  refine ⟨⟨h.1.1, h.1.2⟩, h.2.1, h.2.2.1, h.2.2.2, ?_⟩
  intro h0
  subst h0
  have h2 := h.1
  have hcount : (run_tests_attempts rcOf 0 0 (0 + 1)).2 = 1 := by omega
  exact ⟨hcount, by rw [h.2.1, hcount]⟩

/-- Witness for C5 with a QA command that fails once and passes on the
second attempt, with three retries allowed. -/
theorem c5_run_tests_with_retry_witness :
    (1 ≤ (run_tests_with_retry (fun i => if i = 1 then 1 else 0) 3 5).2 ∧
      (run_tests_with_retry (fun i => if i = 1 then 1 else 0) 3 5).2 ≤ 4) ∧
    run_tests_with_retry (fun i => if i = 1 then 1 else 0) 3 5 = (0, 2) :=
  ⟨⟨(c5_run_tests_with_retry (fun i => if i = 1 then 1 else 0) 3 5).1.1,
    (c5_run_tests_with_retry (fun i => if i = 1 then 1 else 0) 3 5).1.2⟩, by decide⟩

/-- C8: context truncation is idempotent.  Small inputs and disabled
budgets pass through unchanged; a truncated long input has exactly
`max_chars // 2` head characters and `max_chars - max_chars // 2` tail
characters around the marker, so truncating it again reproduces the
same head, marker and tail. -/
theorem c8_truncate_chars_idempotent (text : List Char) (max_chars : Int) :
    truncate_chars (truncate_chars text max_chars) max_chars =
      truncate_chars text max_chars := by
  by_cases h0 : max_chars ≤ 0
  · simp [truncate_chars, h0]
  · by_cases h1 : (text.length : Int) ≤ max_chars
    · simp [truncate_chars, h0, h1]
    · have hmc : (max_chars.toNat : Int) = max_chars := Int.toNat_of_nonneg (by omega)
      have hlt : max_chars < (text.length : Int) := by omega
      have hmlen : max_chars.toNat < text.length := by omega
      have hfirst : truncate_chars text max_chars =
          text.take (max_chars.toNat / 2) ++ ('\n' :: '.' :: '.' :: '.' :: '\n' :: []) ++
            text.drop (text.length - (max_chars.toNat - max_chars.toNat / 2)) := by
        simp only [truncate_chars, if_neg h0, if_neg h1]
      have hA : (text.take (max_chars.toNat / 2)).length = max_chars.toNat / 2 :=
        List.length_take_of_le (by omega)
      have hB : (text.drop (text.length - (max_chars.toNat - max_chars.toNat / 2))).length =
          max_chars.toNat - max_chars.toNat / 2 := by
        rw [List.length_drop]
        omega
      have hAE : (text.take (max_chars.toNat / 2) ++
          ('\n' :: '.' :: '.' :: '.' :: '\n' :: [])).length = max_chars.toNat / 2 + 5 := by
        rw [List.length_append, hA]
        rfl
      have hlen : (text.take (max_chars.toNat / 2) ++ ('\n' :: '.' :: '.' :: '.' :: '\n' :: []) ++
          text.drop (text.length - (max_chars.toNat - max_chars.toNat / 2))).length =
          max_chars.toNat + 5 := by
        rw [List.length_append, hAE, hB]
        omega
      have h1' : ¬((text.take (max_chars.toNat / 2) ++ ('\n' :: '.' :: '.' :: '.' :: '\n' :: []) ++
          text.drop (text.length - (max_chars.toNat - max_chars.toNat / 2))).length : Int) ≤
          max_chars := by
        rw [hlen]
        omega
      rw [hfirst]
      simp only [truncate_chars, if_neg h0, if_neg h1']
      rw [hlen]
      have htake : (text.take (max_chars.toNat / 2) ++ ('\n' :: '.' :: '.' :: '.' :: '\n' :: []) ++
          text.drop (text.length - (max_chars.toNat - max_chars.toNat / 2))).take
            (max_chars.toNat / 2) = text.take (max_chars.toNat / 2) := by
        rw [List.append_assoc]
        exact List.take_left' hA
      have hdropn : max_chars.toNat + 5 - (max_chars.toNat - max_chars.toNat / 2) =
          max_chars.toNat / 2 + 5 := by omega
      have hdrop : (text.take (max_chars.toNat / 2) ++ ('\n' :: '.' :: '.' :: '.' :: '\n' :: []) ++
          text.drop (text.length - (max_chars.toNat - max_chars.toNat / 2))).drop
            (max_chars.toNat + 5 - (max_chars.toNat - max_chars.toNat / 2)) =
          text.drop (text.length - (max_chars.toNat - max_chars.toNat / 2)) := by
        rw [hdropn]
        exact List.drop_left' hAE
      rw [htake, hdrop]

theorem pipe_sep_append_inj (a : List Char) : ∀ (b xs ys : List Char),
    '|' ∉ a → '|' ∉ b → a ++ '|' :: xs = b ++ '|' :: ys → a = b ∧ xs = ys := by
  induction a with
  | nil =>
    intro b xs ys _ hb h
    cases b with
    | nil => simpa using h
    | cons d bs =>
      simp only [List.nil_append, List.cons_append, List.cons.injEq] at h
      refine absurd ?_ hb
      rw [← h.1]
      exact List.mem_cons_self '|' bs
  | cons c as ih =>
    intro b xs ys ha hb h
    cases b with
    | nil =>
      simp only [List.nil_append, List.cons_append, List.cons.injEq] at h
      refine absurd ?_ ha
      rw [h.1]
      exact List.mem_cons_self '|' as
    | cons d bs =>
      simp only [List.cons_append, List.cons.injEq] at h
      obtain ⟨hcd, h2⟩ := h
      have hrec := ih bs xs ys (fun hm => ha (List.mem_cons_of_mem c hm))
        (fun hm => hb (List.mem_cons_of_mem d hm)) h2
      exact ⟨by rw [hcd, hrec.1], hrec.2⟩

/-- C6 counterexample: two trigger requests whose semantic fields differ
(`reason` `"a|b"` with `task` `"c"`, versus `reason` `"a"` with `task`
`"b|c"`) produce the same pipe-joined payload and therefore the same
fingerprint: the fingerprint is not injective in the semantic fields. -/
theorem c6_trigger_fingerprint_counterexample :
    trigger_fingerprint "a|b" "c" true "t" "g" "p" =
      trigger_fingerprint "a" "b|c" true "t" "g" "p" ∧
    ("a|b" : String) ≠ "a" := by
  constructor
  · have hpay : trigger_fingerprint_payload "a|b" "c" true "t" "g" "p" =
        trigger_fingerprint_payload "a" "b|c" true "t" "g" "p" := by decide
    unfold trigger_fingerprint
    rw [hpay]
  · decide

/-- C6 (amended): the fingerprint is a pure function of the six
semantic fields (identical fields give identical fingerprints), and on
fields that are pipe-free and strip-fixed the underlying payload string
is injective, so such distinct field tuples are distinguished up to
SHA-256 collision; fields containing `|` (or differing only in
surrounding whitespace) can collide exactly, as the counterexample
shows. -/
theorem c6_trigger_fingerprint (r1 t1 : String) (rs1 : Bool) (n1 a1 p1 : String)
    (r2 t2 : String) (rs2 : Bool) (n2 a2 p2 : String)
    (hfree : ∀ s ∈ [r1, t1, n1, a1, p1, r2, t2, n2, a2, p2],
      '|' ∉ s.data ∧ pyStrip s = s) :
    ((r1, t1, rs1, n1, a1, p1) = (r2, t2, rs2, n2, a2, p2) →
      trigger_fingerprint r1 t1 rs1 n1 a1 p1 = trigger_fingerprint r2 t2 rs2 n2 a2 p2) ∧
    (trigger_fingerprint_payload r1 t1 rs1 n1 a1 p1 =
        trigger_fingerprint_payload r2 t2 rs2 n2 a2 p2 ↔
      (r1, t1, rs1, n1, a1, p1) = (r2, t2, rs2, n2, a2, p2)) := by
  obtain ⟨hr1, hsr1⟩ := hfree r1 (by simp)
  obtain ⟨ht1, hst1⟩ := hfree t1 (by simp)
  obtain ⟨hn1, hsn1⟩ := hfree n1 (by simp)
  obtain ⟨ha1, hsa1⟩ := hfree a1 (by simp)
  obtain ⟨hp1, hsp1⟩ := hfree p1 (by simp)
  obtain ⟨hr2, hsr2⟩ := hfree r2 (by simp)
  obtain ⟨ht2, hst2⟩ := hfree t2 (by simp)
  obtain ⟨hn2, hsn2⟩ := hfree n2 (by simp)
  obtain ⟨ha2, hsa2⟩ := hfree a2 (by simp)
  obtain ⟨hp2, hsp2⟩ := hfree p2 (by simp)
  have hz1 : '|' ∉ (if rs1 then ("1" : String) else "0").data := by
    cases rs1 <;> decide
  have hz2 : '|' ∉ (if rs2 then ("1" : String) else "0").data := by
    cases rs2 <;> decide
  constructor
  · intro h
    simp only [Prod.mk.injEq] at h
    obtain ⟨e1, e2, e3, e4, e5, e6⟩ := h
    rw [e1, e2, e3, e4, e5, e6]
  · constructor
    · intro h
      unfold trigger_fingerprint_payload at h
      rw [hsr1, hst1, hsn1, hsa1, hsp1, hsr2, hst2, hsn2, hsa2, hsp2] at h
      have hd := congrArg String.data h
      have hpipe : ("|" : String).data = ['|'] := rfl
      simp only [String.data_append, hpipe, List.append_assoc,
        List.singleton_append] at hd
      obtain ⟨er, hd⟩ := pipe_sep_append_inj _ _ _ _ hr1 hr2 hd
      obtain ⟨et, hd⟩ := pipe_sep_append_inj _ _ _ _ ht1 ht2 hd
      obtain ⟨ez, hd⟩ := pipe_sep_append_inj _ _ _ _ hz1 hz2 hd
      obtain ⟨en, hd⟩ := pipe_sep_append_inj _ _ _ _ hn1 hn2 hd
      obtain ⟨ea, hd⟩ := pipe_sep_append_inj _ _ _ _ ha1 ha2 hd
      have ers : rs1 = rs2 := by
        cases rs1 <;> cases rs2 <;> simp_all
      simp only [Prod.mk.injEq]
      exact ⟨String.ext_iff.mpr er, String.ext_iff.mpr et, ers,
        String.ext_iff.mpr en, String.ext_iff.mpr ea, String.ext_iff.mpr hd⟩
    · intro h
      simp only [Prod.mk.injEq] at h
      obtain ⟨e1, e2, e3, e4, e5, e6⟩ := h
      rw [e1, e2, e3, e4, e5, e6]

/-- Witness for the amended C6 theorem at concrete pipe-free fields. -/
theorem c6_trigger_fingerprint_witness :
    (("a", "b", true, "t", "g", "p") = ("a", "b", true, "t", "g", "p") →
      trigger_fingerprint "a" "b" true "t" "g" "p" =
        trigger_fingerprint "a" "b" true "t" "g" "p") ∧
    (trigger_fingerprint_payload "a" "b" true "t" "g" "p" =
        trigger_fingerprint_payload "a" "c" true "t" "g" "p" ↔
      ("a", "b", true, "t", "g", "p") = ("a", "c", true, "t", "g", "p")) :=
  ⟨(c6_trigger_fingerprint "a" "b" true "t" "g" "p" "a" "b" true "t" "g" "p"
      (by decide)).1,
   (c6_trigger_fingerprint "a" "b" true "t" "g" "p" "a" "c" true "t" "g" "p"
      (by decide)).2⟩

/-- Keys other than the three namespace ids and `last_update` are
untouched by the namespace reconciliation write. -/
theorem jget_ns_save (st : Status) (ns : RuntimeNamespace) (now key : String)
    (h1 : key ≠ "tenant_id") (h2 : key ≠ "agent_id") (h3 : key ≠ "project_id")
    (h4 : key ≠ "last_update") :
    jget (save_status now (apply_namespace_to_status st ns)) key = jget st key := by
  unfold save_status apply_namespace_to_status
  rw [jget_jset_ne _ _ _ _ h4, jget_jset_ne _ _ _ _ h3,
    jget_jset_ne _ _ _ _ h2, jget_jset_ne _ _ _ _ h1]

/-- As `jget_ns_save`, through the loop's conditional reconciliation. -/
theorem jget_ns_ite (c : Prop) [Decidable c] (st : Status) (ns : RuntimeNamespace)
    (now key : String)
    (h1 : key ≠ "tenant_id") (h2 : key ≠ "agent_id") (h3 : key ≠ "project_id")
    (h4 : key ≠ "last_update") :
    jget (if c then save_status now (apply_namespace_to_status st ns) else st) key =
      jget st key := by
  split
  · exact jget_ns_save st ns now key h1 h2 h3 h4
  · rfl

/-- Keys other than the two written ones are untouched by the
conditional step-reset double write of `apply_trigger`. -/
theorem jget_ite_jset2_ne (c : Prop) [Decidable c] (st : Status) (k1 k2 key : String)
    (v1 v2 : JVal) (h1 : key ≠ k1) (h2 : key ≠ k2) :
    jget (if c then jset (jset st k1 v1) k2 v2 else st) key = jget st key := by
  split
  · rw [jget_jset_ne _ _ _ _ h2, jget_jset_ne _ _ _ _ h1]
  · rfl

/-- Terminal-state pre-invocation behaviour: with no pending trigger
payload and a `done` / `blocked` state on file, the pre-invocation
phase exits the session with no external invocation and an unchanged
`current_step` (only the namespace reconciliation may have written). -/
theorem loopIterA_terminal (cfg : Cfg) (blueprint : JObj) (attempts : Nat)
    (file0 : Status) (env : Env)
    (htr : (load_trigger_payload env.trigger).1 = JObj.nil)
    (hstate : jget file0 "state" = some (.str "done") ∨
      jget file0 "state" = some (.str "blocked")) :
    ∃ st, loopIterA cfg blueprint attempts file0 env =
        some (.inl ⟨st, attempts, [], .exitSession⟩) ∧
      jget st "current_step" = jget file0 "current_step" := by
  have hcond : ((jget file0 "state").getD (.str "idle") = .str "done" ∨
      (jget file0 "state").getD (.str "idle") = .str "blocked") := by
    rcases hstate with h | h
    · left
      rw [h]
      rfl
    · right
      rw [h]
      rfl
  simp only [loopIterA, htr]
  rw [if_neg (show ¬(JObj.nil ≠ JObj.nil) from fun hc => hc rfl)]
  rw [jget_ns_ite _ _ _ _ _ (by decide) (by decide) (by decide) (by decide)]
  rw [if_pos hcond]
  exact ⟨_, rfl, jget_ns_ite _ _ _ _ _ (by decide) (by decide) (by decide) (by decide)⟩

/-- C1: a `RunStatus` whose `state` is `done` or `blocked` makes any
iteration that consumes no pending trigger payload exit the scheduling
session with no agent invocation and no verification run and with
`current_step` unchanged; and `apply_trigger` always resets `state` to
`idle`, which is what lets scheduling resume. -/
theorem c1_terminal_halt :
    (∀ (cfg : Cfg) (blueprint : JObj) (attempts : Nat) (file0 : Status) (env : Env),
      (load_trigger_payload env.trigger).1 = JObj.nil →
      (jget file0 "state" = some (.str "done") ∨
        jget file0 "state" = some (.str "blocked")) →
      (loopIter cfg blueprint attempts file0 env).map
          (fun r => (r.outcome, r.events, jget r.file "current_step")) =
        some (.exitSession, [], jget file0 "current_step")) ∧
    (∀ (status0 payload : Status) (now : String),
      jget (apply_trigger status0 payload now) "state" = some (.str "idle")) := by
  constructor
  · intro cfg blueprint attempts file0 env htr hstate
    obtain ⟨st, hA, hcs⟩ := loopIterA_terminal cfg blueprint attempts file0 env htr hstate
    unfold loopIter
    rw [hA]
    simp [hcs]
  · intro status0 payload now
    simp only [apply_trigger, save_status]
    rw [jget_jset_ne _ _ _ _ (by decide), jget_jset_ne _ _ _ _ (by decide),
      jget_jset_ne _ _ _ _ (by decide), jget_jset_ne _ _ _ _ (by decide),
      jget_trigger_reason_update _ _ _ (by decide),
      jget_ite_jset2_ne _ _ _ _ _ _ _ (by decide) (by decide),
      jget_jset_ne _ _ _ _ (by decide), jget_jset_ne _ _ _ _ (by decide),
      jget_jset_ne _ _ _ _ (by decide), jget_jset_ne _ _ _ _ (by decide),
      jget_jset_self]

/-- Concrete loop configuration for witnesses: a `--run-once`
supervisor with default settings. -/
def wCfg : Cfg :=
  { run_once := true, full_auto := true, force_start := false,
    max_attempts := 12, codex_timeout := 300, has_external_add_dirs := false,
    sync_target := none, autopr_enabled := false, autopr_required := false,
    qa_retries := 1, qa_retry_sleep := 5, ns_tenant_id := "default",
    ns_agent_id := "main", ns_project_id := "default" }

/-- Concrete environment for witnesses: no trigger file, a clean
primary invocation that touches `PLAN.md`, and a passing QA command. -/
def wEnv : Env :=
  { trigger := .absent, now := "2026-10-12T00:00:00",
    plan_mtime0 := 10, result_mtime0 := 10, plan_mtime1 := 11, result_mtime1 := 10,
    plan_mtime2 := 11, result_mtime2 := 10, primary_rc := 0, fallback_rc := 0,
    autopr_rc := 0, autopr_msg := "", status_written_primary := none,
    status_written_fallback := none, qa_rc := fun _ => 0, checkpoint_name := "step-1" }

/-- Concrete persisted status for witnesses. -/
def wStatus : Status :=
  .cons "state" (.str "idle") (.cons "current_step" (.int 1)
    (.cons "tenant_id" (.str "default") (.cons "agent_id" (.str "main")
      (.cons "project_id" (.str "default") .nil))))

/-- Witness for C1 at a concrete `done` status with no trigger file. -/
theorem c1_terminal_halt_witness :
    (loopIter wCfg default_blueprint 3 (jset wStatus "state" (.str "done")) wEnv).map
        (fun r => (r.outcome, r.events, jget r.file "current_step")) =
      some (.exitSession, [], some (.int 1)) ∧
    jget (apply_trigger wStatus JObj.nil "T") "state" = some (.str "idle") := by
  constructor
  · have h := c1_terminal_halt.1 wCfg default_blueprint 3
      (jset wStatus "state" (.str "done")) wEnv (by decide) (by decide)
    rw [h]
    decide
  · exact c1_terminal_halt.2 wStatus JObj.nil "T"

/-- Whether a blueprint entry is a step dict whose `id` compares equal
to the given `current_step` (the match condition of `get_step`). -/
def stepMatches (v : JVal) (cur : Int) : Bool :=
  match v with
  | .obj fields => pyEqInt (jget fields "id") cur
  | _ => false

/-- Bounded universal quantifier over a JSON array. -/
def jarrAll (p : JVal → Bool) : JArr → Bool
  | .nil => true
  | .cons v rest => p v && jarrAll p rest

theorem findStep_eq_none (steps : JArr) (k : Int)
    (h : jarrAll (fun v => !stepMatches v k) steps = true) : findStep steps k = none := by
  match steps with
  | .nil => rfl
  | .cons v rest =>
    simp only [jarrAll, Bool.and_eq_true] at h
    cases v with
    | obj fields =>
      have h1 : pyEqInt (jget fields "id") k = false := by
        have h2 := h.1
        simp only [stepMatches, Bool.not_eq_true'] at h2
        exact h2
      simp only [findStep, h1]
      rw [if_neg (by simp)]
      exact findStep_eq_none rest k h.2
    | null => exact findStep_eq_none rest k h.2
    | bool b => exact findStep_eq_none rest k h.2
    | int n => exact findStep_eq_none rest k h.2
    | str s => exact findStep_eq_none rest k h.2
    | arr xs => exact findStep_eq_none rest k h.2

/-- Blueprint-exhausted pre-invocation behaviour: with no pending
trigger, a non-terminal state, budget remaining, and a truthy (nonzero
integer) `current_step` whose lookup fails, the pre-invocation phase
marks the run `done` and exits with no external invocation. -/
theorem loopIterA_no_step (cfg : Cfg) (blueprint : JObj) (attempts : Nat)
    (file0 : Status) (env : Env) (k : Int)
    (htr : (load_trigger_payload env.trigger).1 = JObj.nil)
    (hdone : (jget file0 "state").getD (.str "idle") ≠ .str "done")
    (hblocked : (jget file0 "state").getD (.str "idle") ≠ .str "blocked")
    (hbudget : ¬(0 < cfg.max_attempts ∧ cfg.max_attempts ≤ (attempts : Int)))
    (hcur : jget file0 "current_step" = some (.int k))
    (hk : k ≠ 0)
    (hstep : get_step blueprint k = none) :
    ∃ st, loopIterA cfg blueprint attempts file0 env =
        some (.inl ⟨st, attempts, [], .exitSession⟩) ∧
      jget st "state" = some (.str "done") := by
  simp only [loopIterA, htr]
  rw [if_neg (show ¬(JObj.nil ≠ JObj.nil) from fun hc => hc rfl)]
  rw [jget_ns_ite _ _ _ _ _ (by decide) (by decide) (by decide) (by decide)]
  rw [if_neg (fun hc => hc.elim hdone hblocked)]
  rw [if_neg hbudget]
  rw [jget_ns_ite _ _ _ _ _ (by decide) (by decide) (by decide) (by decide), hcur]
  have hpt : pyTruthy (some (JVal.int k)) = true := by
    simp only [pyTruthy, jvTruthy, bne_iff_ne, ne_eq]
    exact hk
  rw [if_neg (not_not_intro hpt)]
  rw [jget_ns_ite _ _ _ _ _ (by decide) (by decide) (by decide) (by decide), hcur]
  simp only [Option.getD_some, pyInt, hstep]
  refine ⟨_, rfl, ?_⟩
  unfold save_status
  rw [jget_jset_ne _ _ _ _ (by decide), jget_jset_self]

/-- C2 (amended): when no entry of the blueprint's `steps` list is a
step dict whose `id` equals the (truthy, nonzero-integer)
`current_step`, `get_step` returns no step and an otherwise normal
iteration sets `state` to `done` and exits without invoking the agent.
(For a falsy `current_step` — 0 or missing — the loop first defaults
it to 1 and looks up step 1, so the original "for any current_step"
reading fails; see the counterexample.) -/
theorem c2_exhausted_blueprint (cfg : Cfg) (blueprint : JObj) (attempts : Nat)
    (file0 : Status) (env : Env) (steps : JArr) (k : Int)
    (htr : (load_trigger_payload env.trigger).1 = JObj.nil)
    (hdone : (jget file0 "state").getD (.str "idle") ≠ .str "done")
    (hblocked : (jget file0 "state").getD (.str "idle") ≠ .str "blocked")
    (hbudget : ¬(0 < cfg.max_attempts ∧ cfg.max_attempts ≤ (attempts : Int)))
    (hcur : jget file0 "current_step" = some (.int k))
    (hk : k ≠ 0)
    (hsteps : (jget blueprint "steps").getD (.arr .nil) = .arr steps)
    (hnone : jarrAll (fun v => !stepMatches v k) steps = true) :
    get_step blueprint k = none ∧
    (loopIter cfg blueprint attempts file0 env).map
        (fun r => (r.outcome, r.events, jget r.file "state")) =
      some (.exitSession, [], some (.str "done")) := by
  have hstep : get_step blueprint k = none := by
    unfold get_step
    rw [hsteps]
    exact findStep_eq_none steps k hnone
  refine ⟨hstep, ?_⟩
  obtain ⟨st, hA, hs⟩ := loopIterA_no_step cfg blueprint attempts file0 env k htr
    hdone hblocked hbudget hcur hk hstep
  unfold loopIter
  rw [hA]
  simp [hs]

/-- Witness for the amended C2 theorem: `current_step = 99` against the
default four-step blueprint. -/
theorem c2_exhausted_blueprint_witness :
    get_step default_blueprint 99 = none ∧
    (loopIter wCfg default_blueprint 0 (jset wStatus "current_step" (.int 99)) wEnv).map
        (fun r => (r.outcome, r.events, jget r.file "state")) =
      some (.exitSession, [], some (.str "done")) :=
  c2_exhausted_blueprint wCfg default_blueprint 0
    (jset wStatus "current_step" (.int 99)) wEnv default_blueprint_steps 99
    (by decide) (by decide) (by decide) (by decide) (by decide) (by decide)
    (by decide) (by decide)

/-- C2 counterexample: with `current_step = 0` no step of the default
blueprint has a matching id (so the step lookup fails), yet the
iteration does not mark the run `done`: the loop first treats the falsy
0 as unset, resets it to 1, and invokes the agent on step 1, ending
idle. -/
theorem c2_exhausted_blueprint_counterexample :
    jarrAll (fun v => !stepMatches v 0) default_blueprint_steps = true ∧
    get_step default_blueprint 0 = none ∧
    (loopIter wCfg default_blueprint 0 (jset wStatus "current_step" (.int 0)) wEnv).map
        (fun r => (r.events.contains Event.codexStart, jget r.file "state")) =
      some (true, some (.str "idle")) := by decide

set_option maxHeartbeats 1600000 in
/-- The classification phase never records an agent invocation: its
event lists hold only QA runs, workspace-test runs and auto-PR calls. -/
theorem loopIterC_events (cfg : Cfg) (blueprint : JObj) (env : Env) (step : JObj)
    (hostSync : Bool) (codex_rc : Int) (p0 r0 p1 r1 : Nat) (file f : Status)
    (evs : List Event) (oc : Outcome)
    (h : loopIterC cfg blueprint env step hostSync codex_rc p0 r0 p1 r1 file =
      some (f, evs, oc)) :
    Event.fallback ∉ evs ∧ Event.hostSyncRun ∉ evs ∧
    Event.codexStart ∉ evs ∧ Event.codexResume ∉ evs := by
  simp only [loopIterC] at h
  repeat
    first
    | (simp only [Option.some.injEq, Prod.mk.injEq] at h
       obtain ⟨h1, h2, h3⟩ := h
       subst h2
       exact ⟨by simp, by simp, by simp, by simp⟩)
    | cases h
    | split at h

set_option maxHeartbeats 1600000 in
/-- An iteration finished by the pre-invocation phase never records a
fallback or any agent invocation. -/
theorem loopIterA_inl_events (cfg : Cfg) (blueprint : JObj) (attempts : Nat)
    (file0 : Status) (env : Env) (r : IterResult)
    (h : loopIterA cfg blueprint attempts file0 env = some (.inl r)) :
    Event.fallback ∉ r.events ∧ Event.hostSyncRun ∉ r.events := by
  simp only [loopIterA] at h
  repeat
    first
    | (simp only [Option.some.injEq, Sum.inl.injEq] at h
       subst h
       exact ⟨by simp, by simp⟩)
    | cases h
    | split at h

/-- C4: in any iteration the escalated fallback invocation happens at
most once; it happens only when the primary exit code is 124 or 0 with
both mtimes unchanged and the step is not a host-sync step; and any
other non-zero primary exit code rules the fallback out entirely. -/
theorem c4_single_shot_fallback (cfg : Cfg) (blueprint : JObj) (attempts : Nat)
    (file0 : Status) (env : Env) (res : IterResult)
    (h : loopIter cfg blueprint attempts file0 env = some res) :
    res.events.count Event.fallback ≤ 1 ∧
    (Event.fallback ∈ res.events →
      (env.primary_rc = 124 ∨ env.primary_rc = 0) ∧
      env.plan_mtime1 = env.plan_mtime0 ∧ env.result_mtime1 = env.result_mtime0 ∧
      Event.hostSyncRun ∉ res.events) ∧
    (¬(env.primary_rc = 124 ∨ env.primary_rc = 0) → Event.fallback ∉ res.events) := by
  unfold loopIter at h
  match hA : loopIterA cfg blueprint attempts file0 env with
  | none =>
    rw [hA] at h
    cases h
  | some (.inl r) =>
    rw [hA] at h
    obtain ⟨hf, hh⟩ := loopIterA_inl_events cfg blueprint attempts file0 env r hA
    have hres : r = res := by simpa using h
    subst hres
    exact ⟨by simp [List.count_eq_zero.mpr hf], fun hm => absurd hm hf, fun _ => hf⟩
  | some (.inr ctx) =>
    rw [hA] at h
    simp only [loopIterB] at h
    split at h
    case isTrue hfb =>
      obtain ⟨hhs, hrc, hp, hr⟩ := hfb
      simp only [Bool.not_eq_true] at hhs
      match hC : loopIterC cfg blueprint env ctx.step ctx.hostSync env.fallback_rc
          env.plan_mtime0 env.result_mtime0 env.plan_mtime2 env.result_mtime2
          (env.status_written_fallback.getD (env.status_written_primary.getD ctx.file)) with
      | none =>
        rw [hC] at h
        cases h
      | some (f, evs, oc) =>
        rw [hC] at h
        obtain ⟨hcf, hch, _, _⟩ := loopIterC_events _ _ _ _ _ _ _ _ _ _ _ _ _ _ hC
        have hres : (⟨f, attempts + 1,
            (if ctx.hostSync then Event.hostSyncRun
              else if ctx.startNeeded then Event.codexStart else Event.codexResume) ::
              Event.fallback :: evs, oc⟩ : IterResult) = res := by
          simpa using h
        subst hres
        simp only [hhs, if_false]
        refine ⟨?_, fun _ => ⟨hrc, hp, hr, ?_⟩, fun hno => absurd hrc hno⟩
        · cases hsn : ctx.startNeeded <;>
            simp [List.count_cons, List.count_eq_zero.mpr hcf]
        · cases hsn : ctx.startNeeded <;> simp [hsn, hch]
    case isFalse hfb =>
      match hC : loopIterC cfg blueprint env ctx.step ctx.hostSync env.primary_rc
          env.plan_mtime0 env.result_mtime0 env.plan_mtime1 env.result_mtime1
          (env.status_written_primary.getD ctx.file) with
      | none =>
        rw [hC] at h
        cases h
      | some (f, evs, oc) =>
        rw [hC] at h
        obtain ⟨hcf, hch, _, _⟩ := loopIterC_events _ _ _ _ _ _ _ _ _ _ _ _ _ _ hC
        have hres : (⟨f, attempts + 1,
            (if ctx.hostSync then Event.hostSyncRun
              else if ctx.startNeeded then Event.codexStart else Event.codexResume) ::
              evs, oc⟩ : IterResult) = res := by
          simpa using h
        subst hres
        have hnotmem : Event.fallback ∉
            ((if ctx.hostSync then Event.hostSyncRun
              else if ctx.startNeeded then Event.codexStart else Event.codexResume) ::
              evs) := by
          cases hhs : ctx.hostSync <;> cases hsn : ctx.startNeeded <;> simp [hcf]
        exact ⟨by simp [List.count_eq_zero.mpr hnotmem], fun hm => absurd hm hnotmem,
          fun _ => hnotmem⟩

/-- Witness for C4 at a concrete iteration that does take the fallback
(clean primary exit, no mtime movement). -/
theorem c4_single_shot_fallback_witness :
    ((loopIter wCfg default_blueprint 0 wStatus
        { wEnv with plan_mtime1 := 10, plan_mtime2 := 12 }).getD
      ⟨JObj.nil, 0, [], .exitSession⟩).events.count Event.fallback ≤ 1 ∧
    Event.fallback ∈ ((loopIter wCfg default_blueprint 0 wStatus
        { wEnv with plan_mtime1 := 10, plan_mtime2 := 12 }).getD
      ⟨JObj.nil, 0, [], .exitSession⟩).events := by
  have h := c4_single_shot_fallback wCfg default_blueprint 0 wStatus
    { wEnv with plan_mtime1 := 10, plan_mtime2 := 12 }
    ((loopIter wCfg default_blueprint 0 wStatus
        { wEnv with plan_mtime1 := 10, plan_mtime2 := 12 }).getD
      ⟨JObj.nil, 0, [], .exitSession⟩) (by decide)
  exact ⟨h.1, by decide⟩
